import Mathlib

/-!
Verification development for the sync2jira matching and reconciliation core
(files sync2jira/intermediary.py and sync2jira/downstream_pr.py).

The Python source is shallowly embedded: intermediary Issue and PR objects
become Lean structures, the reconciliation engine becomes a pure state
transformer over a downstream ticket state together with an explicit trace
of the side effects it requests from the tracker client, and fallible
construction becomes Except.  Conditionally assigned Python attributes are
modelled as Option fields (none = attribute never assigned).
-/

namespace Sync2Jira

/-- One normalized upstream comment, as built by the from_github helpers:
only the body takes part in the logic verified here. -/
structure CommentModel where
  author : String
  body : String

/-- One entry of the pr_updates list of a routing configuration.  In Python
this is a dict; membership tests like the source expression
("merge_transition" in item) become isSome tests on the optional fields. -/
structure PrUpdate where
  merge_transition : Option String := none
  link_transition : Option String := none

/-- The downstream routing configuration for one upstream project, i.e. the
value of config["sync2jira"]["map"][source][upstream]. -/
structure Downstream where
  pr_updates : List PrUpdate := []

/-- The parts of the global config dict that the embedded code reads:
the testing flag, the routing map, and the github-login to jira-username
mapping used by format_comment. -/
structure Config where
  testing : Bool
  map : List (String × List (String × Downstream)) := []
  mapping : List (String × String) := []

/-- config["sync2jira"]["map"][source][upstream]: a missing key at either
level is a Python KeyError, modelled as none. -/
def lookupRoute (config : Config) (source upstream : String) : Option Downstream :=
  (config.map.lookup source).bind (fun m => m.lookup upstream)

/-- Errors of intermediary construction.  A missing routing entry raises in
Python (KeyError, the ConfigurationError of the spec) and is not caught. -/
inductive SyncError where
  | configurationError

/-- The content scrubbing done at the top of Issue and PR construction:
content.encode("ascii", errors="replace").decode("ascii") replaces every
character outside ASCII by the placeholder character, and then
.replace(chr 92, "") removes every backslash. -/
def scrubContent (s : String) : String :=
  String.mk (((s.data.map (fun c => if c.toNat ≤ 127 then c else '?'))).filter
    (fun c => c != '\\'))

/-- trimCommentBody from intermediary.py: bodies longer than 65000
characters are cut to their first 65000 characters, shorter bodies are
returned unchanged. -/
def trimCommentBody (commentBody : String) : String :=
  if commentBody.length > 65000 then String.mk (commentBody.data.take 65000)
  else commentBody

/-- The title preparation of every comment template:
title.replace("]", "").replace("[", "") removes every closing and then
every opening bracket. -/
def stripBrackets (s : String) : String :=
  String.mk ((s.data.filter (fun c => c != ']')).filter (fun c => c != '['))

/-- Python substring membership (needle in haystack) on strings. -/
def containsSubstr (needle haystack : String) : Bool :=
  haystack.data.tails.any (fun t => needle.data.isPrefixOf t)

/-- One character of the regex class for word characters; the embedding
uses the ASCII reading of the Python class. -/
def isWordChar (c : Char) : Bool :=
  c.isAlphanum || c == '_'

/-- One character of the regex class for digits (ASCII reading). -/
def isDigitChar (c : Char) : Bool :=
  c.isDigit

/-- re.findall of the loose ticket pattern (word characters, a dash,
digits) over the buffer, with the scanning semantics of the Python regex
engine: at each position the maximal word run must be followed by a dash,
the following digit run is consumed greedily, and scanning resumes after
each match or one character further on failure. -/
def findTicketsGo : Nat → List Char → List (List Char)
  | 0, _ => []
  | _, [] => []
  | fuel + 1, c :: cs =>
    match (c :: cs).dropWhile isWordChar with
    | '-' :: rs =>
        ((c :: cs).takeWhile isWordChar ++ '-' :: rs.takeWhile isDigitChar)
          :: findTicketsGo fuel (rs.dropWhile isDigitChar)
    | _ => findTicketsGo fuel cs

/-- The scan over the whole buffer: every step of findTicketsGo consumes at
least one character of the buffer, so a fuel equal to the buffer length is
never exhausted and the fuel parameter is only a structural-recursion
device. -/
def findTickets (s : List Char) : List (List Char) :=
  findTicketsGo s.length s

/-- The all_data buffer built at the top of matcher: it starts with a
single space, takes every comment body in reverse order each preceded by a
space, and appends the content when it is truthy (a nonempty string). -/
def matcherBuffer (content : Option String) (comments : List CommentModel) :
    String :=
  let all_data :=
    " " ++ String.join (comments.reverse.map (fun comment => " " ++ comment.body))
  match content with
  | some s => if s = "" then all_data else all_data ++ s
  | none => all_data

/-- matcher from intermediary.py.  The guard on the buffer being truthy is
kept from the source: when it fails the Python function implicitly returns
None, modelled as none.  Deduplication by list(set(..)) is modelled by
dedup; the final loop keeps the candidates that contain a dash (what
re.search of the loose pattern amounts to) and contain a digit. -/
def matcher (content : Option String) (comments : List CommentModel) :
    Option (List String) :=
  let all_data := matcherBuffer content comments
  if all_data = "" then none
  else
    let tickets := (findTickets all_data.data).map String.mk
    let jira_tickets := (tickets.filter (fun i => i.length != 1)).dedup
    some (jira_tickets.filter
      (fun m => m.data.contains '-' && m.data.any isDigitChar))

/-- The intermediary Issue object.  Attributes that Python assigns only
inside the content-is-not-None branch of Issue.init are Options; none means
the attribute was never assigned on the object. -/
structure IssueModel where
  source : String
  rawTitle : String
  url : String
  upstream : String
  comments : List CommentModel
  tags : List String
  fixVersion : List String
  priority : Option String
  content : Option String
  reporter : Option String
  assignee : Option (List String)
  status : Option String
  id : Option String
  upstream_id : Option Nat
  downstream : Option Downstream

/-- The intermediary PR object.  Its constructor assigns every attribute
unconditionally, so only content (None when the input body is falsy) and
status stay optional; downstream is always resolved or construction
raises. -/
structure PRModel where
  source : String
  jira_key : List String
  rawTitle : String
  url : String
  upstream : String
  comments : List CommentModel
  priority : Option String
  content : Option String
  reporter : String
  assignee : List String
  status : Option String
  id : String
  suffix : String
  match_ : List String
  downstream : Downstream

/-- The derived title property of both intermediary classes:
"[" + upstream + "] " + raw title. -/
def PRModel.title (pr : PRModel) : String :=
  "[" ++ pr.upstream ++ "] " ++ pr.rawTitle

/-- Issue.init from intermediary.py.  With content = none only the first
eight attributes are assigned and the routing lookup never runs; with
content present the content is scrubbed, the remaining attributes are
assigned, and a missing routing entry raises (Except.error). -/
def mkIssue (source title url upstream : String) (comments : List CommentModel)
    (config : Config) (tags : List String) (fixVersion : List String)
    (priority : Option String) (content : Option String) (reporter : String)
    (assignee : List String) (status : String) (id upstream_id : Nat)
    (downstream : Option Downstream) : Except SyncError IssueModel :=
  match content with
  | none =>
      .ok { source := source, rawTitle := title, url := url,
            upstream := upstream, comments := comments, tags := tags,
            fixVersion := fixVersion, priority := priority, content := none,
            reporter := none, assignee := none, status := none, id := none,
            upstream_id := none, downstream := none }
  | some c =>
      let resolved :=
        match downstream with
        | some d => some d
        | none => lookupRoute config source upstream
      match resolved with
      | some d =>
          .ok { source := source, rawTitle := title, url := url,
                upstream := upstream, comments := comments, tags := tags,
                fixVersion := fixVersion, priority := priority,
                content := some (scrubContent c), reporter := some reporter,
                assignee := some assignee, status := some status,
                id := some (toString id), upstream_id := some upstream_id,
                downstream := some d }
      | none => .error .configurationError

/-- PR.init from intermediary.py.  A falsy body (absent or empty) leaves
content = None; otherwise the body is scrubbed exactly as for Issue.  The
routing lookup always runs when downstream is not supplied and a missing
entry raises. -/
def mkPR (source : String) (jira_key : List String) (title url upstream : String)
    (config : Config) (comments : List CommentModel) (priority : Option String)
    (content : Option String) (reporter : String) (assignee : List String)
    (status : Option String) (id : Nat) (suffix : String)
    (match_ : List String) (downstream : Option Downstream) :
    Except SyncError PRModel :=
  let contentField :=
    match content with
    | some s => if s = "" then none else some (scrubContent s)
    | none => none
  let resolved :=
    match downstream with
    | some d => some d
    | none => lookupRoute config source upstream
  match resolved with
  | some d =>
      .ok { source := source, jira_key := jira_key, rawTitle := title,
            url := url, upstream := upstream, comments := comments,
            priority := priority, content := contentField,
            reporter := reporter, assignee := assignee, status := status,
            id := toString id, suffix := suffix, match_ := match_,
            downstream := d }
  | none => .error .configurationError

/-- The observable state of one downstream ticket: the URLs of its remote
links and the bodies of its comments, the two pieces the engine queries
before mutating. -/
structure TicketState where
  links : List String
  comments : List String

/-- The two transition kinds of update_transition. -/
inductive TransKind where
  | merge_transition
  | link_transition

/-- Field access item[transition_type] on a pr_updates entry. -/
def transitionOf : TransKind → PrUpdate → Option String
  | .merge_transition, u => u.merge_transition
  | .link_transition, u => u.link_transition

/-- The calls the engine issues against the tracker client, recorded as a
trace.  getClient is the client construction, the others are the mutating
or searching API calls of downstream_pr.py. -/
inductive Effect where
  | getClient
  | searchIssues (query : String)
  | attachLink (url : String) (title : String)
  | addComment (body : String)
  | changeStatus (kind : TransKind) (status : String)

/-- get_jira_username_from_github: first entry of config["mapping"] whose
name equals the login yields its jira value; no entry yields None. -/
def get_jira_username_from_github (config : Config) (github_login : String) :
    Option String :=
  (config.mapping.find? (fun p => p.1 == github_login)).map (fun p => p.2)

/-- format_comment from downstream_pr.py: the reporter rendering (account
id when the mapping resolves to a truthy value) and the four templates
selected by substring tests on the suffix. -/
def format_comment (pr : PRModel) (pr_suffix : String) (config : Config) :
    String :=
  let reporter :=
    match get_jira_username_from_github config pr.reporter with
    | some ret => if ret = "" then pr.reporter else "[~accountid:" ++ ret ++ "]"
    | none => pr.reporter
  if containsSubstr "closed" pr_suffix then
    "Merge request [" ++ stripBrackets pr.title ++ "|" ++ pr.url ++ "] was closed."
  else if containsSubstr "reopened" pr_suffix then
    "Merge request [" ++ stripBrackets pr.title ++ "|" ++ pr.url ++ "] was reopened."
  else if containsSubstr "merged" pr_suffix then
    "Merge request [" ++ stripBrackets pr.title ++ "|" ++ pr.url ++ "] was merged!"
  else
    reporter ++ " mentioned this issue in merge request ["
      ++ stripBrackets pr.title ++ "| " ++ pr.url ++ "]."

/-- issue_link_exists: some remote link of the ticket stores the URL of
the PR. -/
def issue_link_exists (s : TicketState) (pr : PRModel) : Bool :=
  s.links.any (fun u => u == pr.url)

/-- comment_exists: some comment body of the ticket equals the freshly
formatted comment. -/
def comment_exists (s : TicketState) (new_comment : String) : Bool :=
  s.comments.any (fun b => b == new_comment)

/-- Modelled from the spec: the collaborator contract attach_remote_link
of section 6 (implemented in downstream_issue.py, which is not part of the
sources here) adds one remote link with the given URL to the ticket. -/
def attach_link (s : TicketState) (url : String) : TicketState :=
  { s with links := s.links ++ [url] }

/-- Modelled from the spec: the collaborator contract add_comment of
section 6 appends one comment with the given body to the ticket. -/
def add_comment (s : TicketState) (body : String) : TicketState :=
  { s with comments := s.comments ++ [body] }

/-- update_transition from downstream_pr.py: filter the pr_updates list
for entries carrying the transition type and, when one exists, request one
status change to the configured status (change_status of the spec's
section 6 collaborators, recorded as an effect). -/
def update_transition (pr : PRModel) (transition_type : TransKind) :
    List Effect :=
  match pr.downstream.pr_updates.filter
      (fun t => (transitionOf transition_type t).isSome) with
  | [] => []
  | t :: _ =>
      [Effect.changeStatus transition_type ((transitionOf transition_type t).getD "")]

/-- update_jira_issue from downstream_pr.py as a transformer of the ticket
state paired with the trace of tracker calls it performs, in source
order: link-existence and comment-existence checks, conditional link
attachment, conditional comment addition, conditional merge transition,
conditional link transition. -/
def update_jira_issue (s : TicketState) (pr : PRModel) (config : Config) :
    TicketState × List Effect :=
  let updates := pr.downstream.pr_updates
  let new_comment := format_comment pr pr.suffix config
  let link_exists := issue_link_exists s pr
  let comment_exist := comment_exists s new_comment
  let s1 := if link_exists then s else attach_link s pr.url
  let e1 : List Effect :=
    if link_exists then []
    else [Effect.attachLink pr.url ("[PR] " ++ pr.title)]
  let s2 := if comment_exist then s1 else add_comment s1 new_comment
  let e2 : List Effect :=
    if comment_exist then [] else [Effect.addComment new_comment]
  let e3 : List Effect :=
    if updates.any (fun i => (transitionOf .merge_transition i).isSome)
        && containsSubstr "merged" pr.suffix then
      update_transition pr .merge_transition
    else []
  let e4 : List Effect :=
    if updates.any (fun i => (transitionOf .link_transition i).isSome)
        && containsSubstr "mentioned" new_comment && !link_exists then
      update_transition pr .link_transition
    else []
  (s2, e1 ++ e2 ++ e3 ++ e4)

/-- The per-candidate loop of sync_with_jira: for every key, one search;
a tracker error (Except.error, the JIRAError branch) or a result count
other than one abandons the candidate and the loop advances; a unique
result is updated via update_jira_issue. -/
def per_key_sync (pr : PRModel) (config : Config)
    (client : String → Except Unit (List TicketState)) :
    List String → List Effect
  | [] => []
  | jira_key :: rest =>
    Effect.searchIssues ("Key = " ++ jira_key) ::
      (match client jira_key with
       | .error _ => per_key_sync pr config client rest
       | .ok response =>
         if response.length = 0 || response.length > 1 then
           per_key_sync pr config client rest
         else
           (update_jira_issue (response.headD ⟨[], []⟩) pr config).2
             ++ per_key_sync pr config client rest)

/-- sync_with_jira from downstream_pr.py for a PR object: the testing
flag and an empty match short-circuit before the client is obtained;
otherwise the client is constructed and the per-key loop runs over
jira_key. -/
def sync_with_jira (pr : PRModel) (config : Config)
    (client : String → Except Unit (List TicketState)) : List Effect :=
  if config.testing then []
  else if pr.match_.isEmpty then []
  else Effect.getClient :: per_key_sync pr config client pr.jira_key

/-- Observation on a trace: the effect is a remote-link attachment. -/
def isAttach : Effect → Bool
  | .attachLink _ _ => true
  | _ => false

/-- Observation on a trace: the effect is a comment addition. -/
def isAddComment : Effect → Bool
  | .addComment _ => true
  | _ => false

/-- Observation on a trace: the effect is a status change requested for
the link transition. -/
def isLinkTransitionEffect : Effect → Bool
  | .changeStatus .link_transition _ => true
  | _ => false

/-- Number of remote-link attachments performed in a trace. -/
def countAttach (es : List Effect) : Nat :=
  es.countP isAttach

/-- Number of comment additions performed in a trace. -/
def countAddComment (es : List Effect) : Nat :=
  es.countP isAddComment

/-- Whether a trace performs the link status transition. -/
def hasLinkTransition (es : List Effect) : Bool :=
  es.any isLinkTransitionEffect

/-- Modelled from the spec: the generic "mentioned" comment template of
the external-interface table, "reporter mentioned this issue in merge
request [title| url].", with bracket-stripped title and the reporter
rendered through the username mapping.  This restates the words of the
spec so it can be compared with the substring test of the code. -/
def genericMentionComment (pr : PRModel) (config : Config) : String :=
  (match get_jira_username_from_github config pr.reporter with
   | some ret => if ret = "" then pr.reporter else "[~accountid:" ++ ret ++ "]"
   | none => pr.reporter)
    ++ " mentioned this issue in merge request ["
    ++ stripBrackets pr.title ++ "| " ++ pr.url ++ "]."

/-- A concrete PR used by witnesses. -/
def samplePR : PRModel :=
  { source := "github", jira_key := ["FACTORY-123"], rawTitle := "Fix the widget",
    url := "https://example.com/org/repo/pull/7", upstream := "org/repo",
    comments := [], priority := none, content := some "body",
    reporter := "alice", assignee := [], status := none, id := "7",
    suffix := "merged", match_ := ["FACTORY-123"],
    downstream := { pr_updates := [] } }

/-- A concrete configuration with the testing flag set. -/
def sampleCfg : Config :=
  { testing := true }

/-- A concrete configuration whose routing map is empty, so every routing
lookup misses. -/
def sampleEmptyCfg : Config :=
  { testing := false }

/-- The concrete PR of the link-transition counterexample: its title
contains the word mentioned, its suffix is merged, and its routing
configuration opts in to the link transition. -/
def mentionTitlePR : PRModel :=
  { source := "github", jira_key := ["FOO-1"], rawTitle := "mentioned",
    url := "http://example.com/pr/1", upstream := "proj", comments := [],
    priority := none, content := none, reporter := "alice", assignee := [],
    status := none, id := "1", suffix := "merged", match_ := ["FOO-1"],
    downstream :=
      { pr_updates := [{ merge_transition := none, link_transition := some "In Review" }] } }

/-- A downstream ticket with no remote links and no comments. -/
def emptyTicket : TicketState :=
  ⟨[], []⟩

theorem space_append_ne (t : String) : (" " ++ t) ≠ "" := by
  intro h
  have hlen := congrArg String.length h
  rw [String.length_append] at hlen
  have h1 : (" " : String).length = 1 := rfl
  have h2 : ("" : String).length = 0 := rfl
  omega

theorem matcherBuffer_ne (content : Option String) (comments : List CommentModel) :
    matcherBuffer content comments ≠ "" := by
  unfold matcherBuffer
  rcases content with _ | s
  · exact space_append_ne _
  · by_cases hs : s = ""
    · simpa [hs] using space_append_ne _
    · simp only [hs, if_false]
      intro h
      have hlen := congrArg String.length h
      rw [String.length_append, String.length_append] at hlen
      have h1 : (" " : String).length = 1 := rfl
      have h2 : ("" : String).length = 0 := rfl
      omega

theorem matcher_eq (content : Option String) (comments : List CommentModel) :
    matcher content comments
      = some (((((findTickets (matcherBuffer content comments).data).map
          String.mk).filter (fun i => i.length != 1)).dedup).filter
          (fun m => m.data.contains '-' && m.data.any isDigitChar)) := by
  unfold matcher
  rw [if_neg (matcherBuffer_ne content comments)]

theorem matcher_result_props (tickets : List String) :
    (((tickets.filter (fun i => i.length != 1)).dedup).filter
        (fun m => m.data.contains '-' && m.data.any isDigitChar)).Nodup
    ∧ (((tickets.filter (fun i => i.length != 1)).dedup).filter
        (fun m => m.data.contains '-' && m.data.any isDigitChar)).all
        (fun t => (t.length != 1) && t.data.contains '-' && t.data.any isDigitChar)
        = true := by
  constructor
  · exact List.Nodup.filter _ (List.nodup_dedup _)
  · rw [List.all_eq_true]
    intro t ht
    have h1 := List.mem_filter.mp ht
    have h2 := List.mem_filter.mp (List.mem_dedup.mp h1.1)
    simp only [Bool.and_eq_true] at h1 ⊢
    exact ⟨⟨h2.2, h1.2.1⟩, h1.2.2⟩

/-- Claim C4: for every content value (possibly absent) and every ordered
comment list, matcher returns a list and never None, the list has no
duplicates, every element has length different from one, contains a dash
and contains at least one digit; moreover on "See FACTORY-123" it returns
exactly the FACTORY-123 singleton, on "dash alone - nothing" the empty
list, and on absent and empty content with no comments the empty list. -/
theorem matcher_shape_and_examples (content : Option String)
    (comments : List CommentModel) :
    (matcher content comments).isSome = true
      ∧ ((matcher content comments).getD []).Nodup
      ∧ ((matcher content comments).getD []).all
          (fun t => (t.length != 1) && t.data.contains '-' && t.data.any isDigitChar)
          = true
      ∧ matcher (some "See FACTORY-123") [] = some ["FACTORY-123"]
      ∧ matcher (some "dash alone - nothing") [] = some []
      ∧ matcher (some "") [] = some []
      ∧ matcher none [] = some [] := by
  have he := matcher_eq content comments
  refine ⟨by rw [he]; rfl, ?_, ?_, by decide, by decide, by decide, by decide⟩
  · rw [he, Option.getD_some]
    exact (matcher_result_props _).1
  · rw [he, Option.getD_some]
    exact (matcher_result_props _).2

/-- Claim C3: scrubbed content is pure ASCII (every code point below 128)
and backslash-free, and the content field of a constructed Issue is the
scrub of its input whenever construction succeeds; the content field of a
constructed PR is the scrub of its truthy input (None for a falsy one). -/
theorem content_pure_ascii (s : String) :
    ((scrubContent s).data.all
        (fun c => decide (c.toNat < 128) && (c != '\\')) = true)
      ∧ (∀ source title url upstream comments config tags fixVersion priority
            reporter assignee status id upstream_id downstream,
          (mkIssue source title url upstream comments config tags fixVersion
              priority (some s) reporter assignee status id upstream_id
              downstream).map (fun i => i.content)
            = (mkIssue source title url upstream comments config tags fixVersion
                priority (some s) reporter assignee status id upstream_id
                downstream).map (fun _ => some (scrubContent s)))
      ∧ (∀ source jira_key title url upstream config comments priority reporter
            assignee status id suffix match_arg downstream,
          (mkPR source jira_key title url upstream config comments priority
              (some s) reporter assignee status id suffix match_arg
              downstream).map (fun p => p.content)
            = (mkPR source jira_key title url upstream config comments priority
                (some s) reporter assignee status id suffix match_arg
                downstream).map
                (fun _ => if s = "" then none else some (scrubContent s))) := by
  refine ⟨?_, ?_, ?_⟩
  · rw [List.all_eq_true]
    intro c hc
    have hc2 : c ∈ (s.data.map (fun c => if c.toNat ≤ 127 then c else '?')).filter
        (fun c => c != '\\') := hc
    have h1 := List.mem_filter.mp hc2
    obtain ⟨a, _, ha⟩ := List.mem_map.mp h1.1
    simp only [Bool.and_eq_true, decide_eq_true_eq]
    refine ⟨?_, h1.2⟩
    by_cases h127 : a.toNat ≤ 127
    · rw [if_pos h127] at ha
      subst ha
      omega
    · rw [if_neg h127] at ha
      subst ha
      decide
  · intro source title url upstream comments config tags fixVersion priority
      reporter assignee status id upstream_id downstream
    unfold mkIssue
    rcases downstream with _ | d
    · cases h : lookupRoute config source upstream <;> simp [Except.map]
    · simp [Except.map]
  · intro source jira_key title url upstream config comments priority reporter
      assignee status id suffix match_arg downstream
    unfold mkPR
    rcases downstream with _ | d
    · cases h : lookupRoute config source upstream <;> simp [Except.map]
    · simp [Except.map]

/-- Claim C8: trimCommentBody never returns more than 65000 characters,
returns short bodies unchanged, and returns the first 65000 characters of
long bodies, signalling no error in either case. -/
theorem trimCommentBody_contract (s : String) :
    (trimCommentBody s).length ≤ 65000
      ∧ (s.length ≤ 65000 → trimCommentBody s = s)
      ∧ (65000 < s.length → trimCommentBody s = String.mk (s.data.take 65000)) := by
  unfold trimCommentBody
  by_cases h : s.length > 65000
  · rw [if_pos h]
    refine ⟨?_, fun h2 => absurd h (by omega), fun _ => rfl⟩
    show (s.data.take 65000).length ≤ 65000
    rw [List.length_take]
    exact min_le_left _ _
  · rw [if_neg h]
    exact ⟨by omega, fun _ => rfl, fun h2 => absurd h2 (by omega)⟩

/-- Witness for claim C8 at the three-character body abc. -/
theorem trimCommentBody_contract_witness :
    (trimCommentBody "abc").length ≤ 65000 ∧ trimCommentBody "abc" = "abc" :=
  ⟨(trimCommentBody_contract "abc").1,
   (trimCommentBody_contract "abc").2.1 (by decide)⟩

/-- Claim C10: an Issue constructed with absent content populates only
source, raw title, url, upstream project, comments, tags, fixVersion and
priority; reporter, assignee, status, id, upstream id, downstream and
content are all left unset (and the routing lookup never runs, so even an
explicit downstream argument is ignored). -/
theorem issue_null_content_fields (source title url upstream : String)
    (comments : List CommentModel) (config : Config) (tags : List String)
    (fixVersion : List String) (priority : Option String) (reporter : String)
    (assignee : List String) (status : String) (id upstream_id : Nat)
    (downstream : Option Downstream) :
    mkIssue source title url upstream comments config tags fixVersion priority
        none reporter assignee status id upstream_id downstream
      = .ok { source := source, rawTitle := title, url := url,
              upstream := upstream, comments := comments, tags := tags,
              fixVersion := fixVersion, priority := priority, content := none,
              reporter := none, assignee := none, status := none, id := none,
              upstream_id := none, downstream := none } :=
  rfl

/-- Counterexample to claim C7 as stated: an Issue built with absent
content, no explicit downstream argument, and a routing map with no entry
for its project constructs successfully instead of failing, because the
routing lookup of Issue construction only runs in the content-is-present
branch. -/
theorem issue_missing_route_null_content_ok :
    mkIssue "github" "a title" "http://u" "projX" [] sampleEmptyCfg [] [] none
        none "rep" [] "Open" 5 7 none
      = .ok { source := "github", rawTitle := "a title", url := "http://u",
              upstream := "projX", comments := [], tags := [],
              fixVersion := [], priority := none, content := none,
              reporter := none, assignee := none, status := none, id := none,
              upstream_id := none, downstream := none } :=
  rfl

/-- Claim C7 as amended: for every PR, and for every Issue whose content
is present, constructed without an explicit downstream argument, a missing
routing entry makes construction fail with the configuration error, which
is propagated (Except.error) and no intermediary object is produced. -/
theorem missing_route_raises (source upstream : String) (config : Config)
    (h : lookupRoute config source upstream = none) :
    (∀ title url comments tags fixVersion priority c reporter assignee status
        id upstream_id,
      mkIssue source title url upstream comments config tags fixVersion
          priority (some c) reporter assignee status id upstream_id none
        = .error .configurationError)
    ∧ (∀ jira_key title url comments priority content reporter assignee status
          id suffix match_arg,
        mkPR source jira_key title url upstream config comments priority
            content reporter assignee status id suffix match_arg none
          = .error .configurationError) := by
  constructor
  · intro title url comments tags fixVersion priority c reporter assignee
      status id upstream_id
    unfold mkIssue
    simp [h]
  · intro jira_key title url comments priority content reporter assignee
      status id suffix match_arg
    unfold mkPR
    simp [h]

/-- Witness for the amended claim C7: with an empty routing map both
constructors fail with the configuration error. -/
theorem missing_route_raises_witness :
    mkIssue "github" "t" "u" "projX" [] sampleEmptyCfg [] [] none
        (some "body") "rep" [] "Open" 1 2 none = .error .configurationError
    ∧ mkPR "github" [] "t" "u" "projX" sampleEmptyCfg [] none none "rep" []
        none 1 "merged" [] none = .error .configurationError :=
  ⟨(missing_route_raises "github" "projX" sampleEmptyCfg rfl).1
      "t" "u" [] [] [] none "body" "rep" [] "Open" 1 2,
   (missing_route_raises "github" "projX" sampleEmptyCfg rfl).2
      [] "t" "u" [] none none "rep" [] none 1 "merged" []⟩

/-- Claim C9: whenever the suffix is the string merged, the generated
comment is exactly the merged template, with the derived title stripped of
its bracket characters and the literal URL. -/
theorem format_comment_merged (pr : PRModel) (config : Config)
    (h : pr.suffix = "merged") :
    format_comment pr pr.suffix config
      = "Merge request [" ++ stripBrackets pr.title ++ "|" ++ pr.url
          ++ "] was merged!" := by
  rw [h]
  rfl

/-- Witness for claim C9 at a concrete PR whose suffix is merged. -/
theorem format_comment_merged_witness :
    format_comment samplePR samplePR.suffix sampleCfg
      = "Merge request [" ++ stripBrackets samplePR.title ++ "|"
          ++ samplePR.url ++ "] was merged!" :=
  format_comment_merged samplePR sampleCfg rfl

theorem countP_isAttach_update_transition (pr : PRModel) (k : TransKind) :
    (update_transition pr k).countP isAttach = 0 := by
  unfold update_transition
  cases h : pr.downstream.pr_updates.filter (fun t => (transitionOf k t).isSome) with
  | nil => rfl
  | cons t ts => simp [List.countP_cons, isAttach]

theorem countP_isAddComment_update_transition (pr : PRModel) (k : TransKind) :
    (update_transition pr k).countP isAddComment = 0 := by
  unfold update_transition
  cases h : pr.downstream.pr_updates.filter (fun t => (transitionOf k t).isSome) with
  | nil => rfl
  | cons t ts => simp [List.countP_cons, isAddComment]

theorem countP_isAttach_ite (c : Prop) [Decidable c] (pr : PRModel) (k : TransKind) :
    (if c then update_transition pr k else ([] : List Effect)).countP isAttach
      = 0 := by
  split
  · exact countP_isAttach_update_transition pr k
  · rfl

theorem countP_isAddComment_ite (c : Prop) [Decidable c] (pr : PRModel)
    (k : TransKind) :
    (if c then update_transition pr k else ([] : List Effect)).countP isAddComment
      = 0 := by
  split
  · exact countP_isAddComment_update_transition pr k
  · rfl

theorem update_fst_links (s : TicketState) (pr : PRModel) (config : Config) :
    (update_jira_issue s pr config).1.links
      = if issue_link_exists s pr then s.links else s.links ++ [pr.url] := by
  unfold update_jira_issue
  by_cases h1 : issue_link_exists s pr <;>
    by_cases h2 : comment_exists s (format_comment pr pr.suffix config) <;>
      simp [h1, h2, attach_link, add_comment]

theorem update_fst_comments (s : TicketState) (pr : PRModel) (config : Config) :
    (update_jira_issue s pr config).1.comments
      = if comment_exists s (format_comment pr pr.suffix config) then s.comments
        else s.comments ++ [format_comment pr pr.suffix config] := by
  unfold update_jira_issue
  by_cases h1 : issue_link_exists s pr <;>
    by_cases h2 : comment_exists s (format_comment pr pr.suffix config) <;>
      simp [h1, h2, attach_link, add_comment]

theorem issue_link_exists_update (s : TicketState) (pr : PRModel) (config : Config) :
    issue_link_exists (update_jira_issue s pr config).1 pr = true := by
  unfold issue_link_exists
  rw [update_fst_links]
  by_cases h : issue_link_exists s pr
  · rw [if_pos h]
    exact h
  · rw [if_neg h]
    simp [List.any_append]

theorem comment_exists_update (s : TicketState) (pr : PRModel) (config : Config) :
    comment_exists (update_jira_issue s pr config).1
        (format_comment pr pr.suffix config) = true := by
  unfold comment_exists
  rw [update_fst_comments]
  by_cases h : comment_exists s (format_comment pr pr.suffix config)
  · rw [if_pos h]
    exact h
  · rw [if_neg h]
    simp [List.any_append]

theorem countAttach_update (s : TicketState) (pr : PRModel) (config : Config) :
    countAttach (update_jira_issue s pr config).2
      = if issue_link_exists s pr then 0 else 1 := by
  unfold update_jira_issue countAttach
  by_cases h1 : issue_link_exists s pr <;>
    by_cases h2 : comment_exists s (format_comment pr pr.suffix config) <;>
      simp [h1, h2, List.countP_append, List.countP_cons, isAttach,
        countP_isAttach_ite]

theorem countAddComment_update (s : TicketState) (pr : PRModel) (config : Config) :
    countAddComment (update_jira_issue s pr config).2
      = if comment_exists s (format_comment pr pr.suffix config) then 0 else 1 := by
  unfold update_jira_issue countAddComment
  by_cases h1 : issue_link_exists s pr <;>
    by_cases h2 : comment_exists s (format_comment pr pr.suffix config) <;>
      simp [h1, h2, List.countP_append, List.countP_cons, isAddComment,
        countP_isAddComment_ite]

/-- Claim C1: the reconciliation update is idempotent: attaching the
remote link happens exactly when no existing remote link of the ticket
stores the URL of the PR, adding the comment happens exactly when no
existing comment body equals the comment computed for this run, and a
second run against the state the first run left behind performs zero
additional attachments and zero additional comment additions. -/
theorem update_jira_issue_idempotent (s : TicketState) (pr : PRModel)
    (config : Config) :
    countAttach (update_jira_issue (update_jira_issue s pr config).1 pr config).2
        = 0
    ∧ countAddComment
        (update_jira_issue (update_jira_issue s pr config).1 pr config).2 = 0
    ∧ countAttach (update_jira_issue s pr config).2
        = (if issue_link_exists s pr then 0 else 1)
    ∧ countAddComment (update_jira_issue s pr config).2
        = (if comment_exists s (format_comment pr pr.suffix config) then 0 else 1) := by
  refine ⟨?_, ?_, countAttach_update s pr config, countAddComment_update s pr config⟩
  · rw [countAttach_update, issue_link_exists_update]
    simp
  · rw [countAddComment_update, comment_exists_update]
    simp

theorem any_isLink_update_transition_merge (pr : PRModel) :
    (update_transition pr .merge_transition).any isLinkTransitionEffect = false := by
  unfold update_transition
  cases h : pr.downstream.pr_updates.filter
      (fun t => (transitionOf TransKind.merge_transition t).isSome) with
  | nil => rfl
  | cons t ts => simp [isLinkTransitionEffect]

theorem any_isLink_update_transition_link (pr : PRModel) :
    (update_transition pr .link_transition).any isLinkTransitionEffect
      = pr.downstream.pr_updates.any
          (fun i => (transitionOf .link_transition i).isSome) := by
  unfold update_transition
  cases h : pr.downstream.pr_updates.filter
      (fun t => (transitionOf TransKind.link_transition t).isSome) with
  | nil =>
    have hall : pr.downstream.pr_updates.any
        (fun i => (transitionOf .link_transition i).isSome) = false := by
      rw [List.any_eq_false]
      intro x hx
      simpa using List.filter_eq_nil_iff.mp h x hx
    simp [hall]
  | cons t ts =>
    have ht : t ∈ pr.downstream.pr_updates.filter
        (fun u => (transitionOf TransKind.link_transition u).isSome) := by
      rw [h]
      exact List.mem_cons_self t ts
    have hm := List.mem_filter.mp ht
    have hany : pr.downstream.pr_updates.any
        (fun i => (transitionOf .link_transition i).isSome) = true :=
      List.any_eq_true.mpr ⟨t, hm.1, hm.2⟩
    simp [hany, isLinkTransitionEffect]

theorem any_isLink_ite_merge (c : Prop) [Decidable c] (pr : PRModel) :
    (if c then update_transition pr .merge_transition
     else ([] : List Effect)).any isLinkTransitionEffect = false := by
  split
  · exact any_isLink_update_transition_merge pr
  · rfl

/-- Claim C2 as amended: the link status transition is performed if and
only if the routing configuration carries a link_transition entry, the
comment computed for this run contains the substring mentioned (true of
the generic template, but also of the other templates whenever the title
or URL of the PR contains that word), and no remote link with the URL of
the PR existed on the ticket before this run. -/
theorem link_transition_condition (s : TicketState) (pr : PRModel)
    (config : Config) :
    hasLinkTransition (update_jira_issue s pr config).2
      = (pr.downstream.pr_updates.any
            (fun i => (transitionOf .link_transition i).isSome)
          && containsSubstr "mentioned" (format_comment pr pr.suffix config)
          && !(issue_link_exists s pr)) := by
  unfold update_jira_issue hasLinkTransition
  by_cases h1 : issue_link_exists s pr <;>
    by_cases h2 : comment_exists s (format_comment pr pr.suffix config) <;>
      by_cases hA : pr.downstream.pr_updates.any
          (fun i => (transitionOf TransKind.link_transition i).isSome) <;>
        by_cases hM : containsSubstr "mentioned" (format_comment pr pr.suffix config) <;>
          simp [h1, h2, hA, hM, List.any_append, any_isLink_ite_merge,
            any_isLink_update_transition_link, isLinkTransitionEffect]

/-- Counterexample to claim C2 as stated: on a ticket with no prior link,
a PR whose routing opts in to link_transition, whose suffix is merged and
whose title contains the word mentioned gets the link transition performed
although the computed comment is the merged template, not the generic
mentioned template. -/
theorem link_transition_fires_on_merged_comment :
    ¬ (hasLinkTransition (update_jira_issue emptyTicket mentionTitlePR sampleEmptyCfg).2 = true
        ↔ (mentionTitlePR.downstream.pr_updates.any
              (fun i => (transitionOf .link_transition i).isSome) = true
            ∧ format_comment mentionTitlePR mentionTitlePR.suffix sampleEmptyCfg
                = genericMentionComment mentionTitlePR sampleEmptyCfg
            ∧ issue_link_exists emptyTicket mentionTitlePR = false)) := by
  decide

/-- Claim C5: the per-candidate loop treats every candidate key
independently: each key is searched, a tracker error or a result count
other than one only abandons that candidate, and every uniquely resolved
candidate is updated, whatever happened to the candidates before it. -/
theorem per_key_sync_isolates_failures (pr : PRModel) (config : Config)
    (client : String → Except Unit (List TicketState)) (keys : List String) :
    per_key_sync pr config client keys
      = keys.flatMap (fun k =>
          Effect.searchIssues ("Key = " ++ k) ::
            (match client k with
             | .ok [existing] => (update_jira_issue existing pr config).2
             | _ => [])) := by
  induction keys with
  | nil => rfl
  | cons k rest ih =>
    simp only [per_key_sync, List.flatMap_cons]
    cases hc : client k with
    | error e => simp [hc, ih]
    | ok response =>
      rcases response with _ | ⟨t, _ | ⟨t2, ts2⟩⟩
      · simp [hc, ih]
      · simp [hc, ih]
      · simp [hc, ih]

/-- Claim C6: with the testing flag set, or with an empty match field, the
engine returns at once: the trace is empty, so no tracker client is
obtained and no downstream call of any kind is made. -/
theorem sync_with_jira_short_circuit (pr : PRModel) (config : Config)
    (client : String → Except Unit (List TicketState))
    (h : config.testing = true ∨ pr.match_ = []) :
    sync_with_jira pr config client = [] := by
  rcases h with h | h
  · simp [sync_with_jira, h]
  · by_cases ht : config.testing <;> simp [sync_with_jira, ht, h]

/-- Witness for claim C6: the sample configuration has the testing flag
set and the trace is empty. -/
theorem sync_with_jira_short_circuit_witness :
    sync_with_jira samplePR sampleCfg (fun _ => Except.error ()) = [] :=
  sync_with_jira_short_circuit samplePR sampleCfg (fun _ => Except.error ())
    (Or.inl rfl)

end Sync2Jira
